import Mathlib

/-
Verification development for the telegram bot core (src/telegrambot.py).

The Python source is shallowly embedded:
* Python strings are modelled as List Char;
* the per-user timestamp log (user_request_times[user_id]) is an explicit
  List Int, with the wall clock passed in as an Int argument;
* the per-user conversation history (user_conversations[user_id]) is an
  explicit List Turn;
* outbound Telegram sends (bot.reply_to, bot.send_photo, bot.send_media_group,
  bot.send_message) are modelled as an emitted list of Reply events;
* the Together backend is modelled as an oracle argument: for image
  generation, a function from call index to the response's .data field;
  for chat completion, an Except value carrying the returned content.
-/

namespace TelegramBot

/-- Source line 46: RATE_LIMIT = 5. -/
def RATE_LIMIT : Nat := 5

/-- Source line 47: TIME_WINDOW = 60 (seconds). -/
def TIME_WINDOW : Int := 60

/-- The list-comprehension filter in is_rate_limited (source lines 55-58):
keep a timestamp t exactly when current_time - t < TIME_WINDOW. -/
def pruneLog (now : Int) (log : List Int) : List Int :=
  log.filter (fun t => decide (now - t < TIME_WINDOW))

/-- Source lines 50-62, is_rate_limited specialised to one user's log.
Returns (limited?, updated log): after pruning, if the log already holds
RATE_LIMIT or more timestamps the check returns True (limited) and does not
record now; otherwise it appends now and returns False (admitted). -/
def is_rate_limited (now : Int) (log : List Int) : Bool × List Int :=
  let pruned := pruneLog now log
  if RATE_LIMIT ≤ pruned.length then (true, pruned)
  else (false, pruned ++ [now])

/-- A sequence of admission checks at the given times, starting from the given
log; returns the list of is_rate_limited results (true = rejected) and the
final log. -/
def runChecks : List Int → List Int → List Bool × List Int
  | [], log => ([], log)
  | t :: ts, log =>
    let r := is_rate_limited t log
    let rest := runChecks ts r.2
    (r.1 :: rest.1, rest.2)

lemma pruneLog_length_le (now : Int) (log : List Int) :
    (pruneLog now log).length ≤ log.length :=
  List.length_filter_le _ _

lemma is_rate_limited_length_le (now : Int) (log : List Int)
    (h : log.length ≤ RATE_LIMIT) :
    ((is_rate_limited now log).2).length ≤ RATE_LIMIT := by
  unfold is_rate_limited
  by_cases h5 : RATE_LIMIT ≤ (pruneLog now log).length
  · simpa [h5] using le_trans (pruneLog_length_le now log) h
  · push_neg at h5
    simpa [h5.not_le, List.length_append] using h5

lemma runChecks_length_le (times : List Int) (log : List Int)
    (h : log.length ≤ RATE_LIMIT) :
    ((runChecks times log).2).length ≤ RATE_LIMIT := by
  induction times generalizing log with
  | nil => simpa [runChecks] using h
  | cons t ts ih =>
    simpa [runChecks] using ih _ (is_rate_limited_length_le t log h)

/-- C1: For every user and every sequence of admission checks
(is_rate_limited calls with nondecreasing clock readings), the number of
timestamps retained in that user's request log that lie within any trailing
TIME_WINDOW-second (60 s) interval never exceeds RATE_LIMIT (5).
The retained log never holds more than RATE_LIMIT timestamps in total, so in
particular no trailing window, sampled at any instant, can hold more. -/
theorem rate_limiter_window_bound (times : List Int) (now : Int)
    (_hmono : times.Chain' (· ≤ ·)) :
    ((runChecks times []).2.countP
        (fun t => decide (0 ≤ now - t ∧ now - t < TIME_WINDOW))) ≤ RATE_LIMIT :=
  le_trans (List.countP_le_length _) (runChecks_length_le times [] (by simp))

/-- Witness for C1 at a concrete nondecreasing sequence of check times. -/
theorem rate_limiter_window_bound_witness :
    ((runChecks [0, 10, 20, 30, 40, 50, 55] []).2.countP
        (fun t => decide (0 ≤ (55 : Int) - t ∧ (55 : Int) - t < TIME_WINDOW))) ≤ RATE_LIMIT :=
  rate_limiter_window_bound [0, 10, 20, 30, 40, 50, 55] 55
    (by norm_num [List.chain'_cons, List.chain'_singleton])

/-- C2: A single admission check first prunes every timestamp older than
TIME_WINDOW seconds before now from the user's log (a timestamp t is retained
exactly when now - t < TIME_WINDOW), then rejects without recording now if the
pruned log has at least RATE_LIMIT entries, and otherwise appends now and
admits (is_rate_limited returns true exactly on rejection).  Consequently six
rapid checks for one user within the window yield exactly five admits
(false) followed by one rejection (true), and a check made after the window
has elapsed (here at time 60, after checks at time 0) admits again. -/
theorem rate_limiter_check_behavior :
    (∀ now : Int, ∀ log : List Int, ∀ t : Int,
        t ∈ pruneLog now log ↔ (t ∈ log ∧ now - t < TIME_WINDOW))
  ∧ (∀ now : Int, ∀ log : List Int, RATE_LIMIT ≤ (pruneLog now log).length →
        is_rate_limited now log = (true, pruneLog now log))
  ∧ (∀ now : Int, ∀ log : List Int, (pruneLog now log).length < RATE_LIMIT →
        is_rate_limited now log = (false, pruneLog now log ++ [now]))
  ∧ (runChecks [0, 0, 0, 0, 0, 0] []).1 = [false, false, false, false, false, true]
  ∧ (is_rate_limited 60 (runChecks [0, 0, 0, 0, 0, 0] []).2).1 = false := by
  refine ⟨?_, ?_, ?_, by decide, by decide⟩
  · intro now log t
    simp [pruneLog]
  · intro now log h
    simp [is_rate_limited, h]
  · intro now log h
    simp [is_rate_limited, h.not_le]

/-- Witness for C2's conditional clauses: a full pruned log rejects and is
left unchanged; a non-full pruned log admits and records the current time. -/
theorem rate_limiter_check_behavior_witness :
    is_rate_limited 0 [0, 0, 0, 0, 0] = (true, [0, 0, 0, 0, 0])
  ∧ is_rate_limited 5 [0] = (false, [0, 5]) :=
  ⟨rate_limiter_check_behavior.2.1 0 [0, 0, 0, 0, 0] (by decide),
   rate_limiter_check_behavior.2.2.1 5 [0] (by decide)⟩

/-- Abbreviation turning a Lean string literal into the List Char model of a
Python string. -/
def str (s : String) : List Char := s.toList

/-- Python str.split() with no separator argument (source line 72): split on
runs of whitespace, producing no empty tokens and ignoring leading and
trailing whitespace.  The accumulator holds the current word reversed.
(The source calls message_text.strip().split(); the leading strip() is a
no-op for split() without a separator, which already discards boundary
whitespace, so it is not modelled separately.) -/
def splitWsAux : List Char → List Char → List (List Char)
  | [], acc => if acc = [] then [] else [acc.reverse]
  | c :: cs, acc =>
    if c.isWhitespace then
      if acc = [] then splitWsAux cs [] else acc.reverse :: splitWsAux cs []
    else splitWsAux cs (c :: acc)

def tokenize (s : List Char) : List (List Char) := splitWsAux s []

/-- Python str.strip(): drop whitespace from both ends. -/
def trimChars (cs : List Char) : List Char :=
  ((cs.dropWhile (fun c => c.isWhitespace)).reverse.dropWhile
      (fun c => c.isWhitespace)).reverse

/-- Python space-join of tokens, as in the source's join of parts. -/
def joinSpaces : List (List Char) → List Char
  | [] => []
  | [w] => w
  | w :: ws => w ++ ' ' :: joinSpaces ws

/-- Value of a decimal digit character. -/
def digitVal (c : Char) : Nat := c.toNat - 48

/-- A nonempty all-decimal-digit character list read as a natural number. -/
def parseDigits (cs : List Char) : Option Nat :=
  if cs = [] then none
  else if cs.all (fun c => c.isDigit) then
    some (cs.foldl (fun n c => n * 10 + digitVal c) 0)
  else none

/-- Python int(s) applied to a whitespace-free token (source line 78):
an optional sign followed by decimal digits, ValueError (none) otherwise.
(Python additionally accepts underscore digit grouping and non-ASCII decimal
digits; no behavior the spec claims depends on those.) -/
def parseIntPy (cs : List Char) : Option Int :=
  match cs with
  | '-' :: rest => (parseDigits rest).map (fun n => -(n : Int))
  | '+' :: rest => (parseDigits rest).map (fun n => (n : Int))
  | _ => (parseDigits cs).map (fun n => (n : Int))

/-- The three distinct error messages parse_generate_command can return
(source lines 74, 80, 90): usage is the please-provide-a-prompt message,
range is the at-least-1 message, invalidPrompt is the valid-prompt message. -/
inductive ParseError
  | usage
  | range
  | invalidPrompt
deriving DecidableEq

/-- The parsed /generate command dict of source line 92. -/
structure GenerateCommand where
  count : Int
  prompt : List Char
deriving DecidableEq

/-- The (parsed, error) pair returned by parse_generate_command: exactly one
of the two components is present in the source, modelled as a sum. -/
inductive ParseResult
  | ok (cmd : GenerateCommand)
  | error (e : ParseError)
deriving DecidableEq

/-- Source lines 78-83 and 89-90: the branch where parts[1] parses as an int.
The count is range-checked, then clamped (only values strictly above 11 are
reduced to 10), and the prompt is the remaining tokens joined by single
spaces and stripped; an empty prompt is the invalid-prompt error. -/
def parseWithCount (count : Int) (rest : List (List Char)) : ParseResult :=
  if count < 1 then ParseResult.error ParseError.range
  else if trimChars (joinSpaces rest) = [] then
    ParseResult.error ParseError.invalidPrompt
  else ParseResult.ok ⟨if 11 < count then 10 else count, trimChars (joinSpaces rest)⟩

/-- Source lines 84-87 and 89-90: the ValueError branch where parts[1] is not
an int: count 1, prompt all tokens from index 1 joined and stripped. -/
def parseNoCount (tokens : List (List Char)) : ParseResult :=
  if trimChars (joinSpaces tokens) = [] then
    ParseResult.error ParseError.invalidPrompt
  else ParseResult.ok ⟨1, trimChars (joinSpaces tokens)⟩

/-- Source lines 72-92: dispatch on the token list. -/
def parseTokens : List (List Char) → ParseResult
  | _ :: second :: rest =>
    match parseIntPy second with
    | some count => parseWithCount count rest
    | none => parseNoCount (second :: rest)
  | _ => ParseResult.error ParseError.usage

/-- Source lines 65-92: parse_generate_command. -/
def parse_generate_command (message_text : List Char) : ParseResult :=
  parseTokens (tokenize message_text)

/-- A token produced by whitespace splitting: nonempty and whitespace-free. -/
def goodTok (w : List Char) : Prop :=
  w ≠ [] ∧ ∀ c ∈ w, c.isWhitespace = false

lemma splitWsAux_good (cs : List Char) :
    ∀ acc : List Char, (∀ c ∈ acc, c.isWhitespace = false) →
      ∀ w ∈ splitWsAux cs acc, goodTok w := by
  induction cs with
  | nil =>
    intro acc hacc w hw
    by_cases h : acc = []
    · simp [splitWsAux, h] at hw
    · simp only [splitWsAux, if_neg h, List.mem_singleton] at hw
      subst hw
      exact ⟨by simpa using h, by simpa using hacc⟩
  | cons c cs ih =>
    intro acc hacc w hw
    by_cases hws : c.isWhitespace
    · by_cases h : acc = []
      · simp only [splitWsAux, if_pos hws, if_pos h] at hw
        exact ih [] (by simp) w hw
      · simp only [splitWsAux, if_pos hws, if_neg h, List.mem_cons] at hw
        rcases hw with he | he
        · subst he
          exact ⟨by simpa using h, by simpa using hacc⟩
        · exact ih [] (by simp) w he
    · simp only [splitWsAux, if_neg hws] at hw
      refine ih (c :: acc) ?_ w hw
      intro d hd
      rcases List.mem_cons.mp hd with rfl | hd
      · simpa using hws
      · exact hacc d hd

lemma tokenize_good (s : List Char) : ∀ w ∈ tokenize s, goodTok w :=
  splitWsAux_good s [] (by simp)

lemma joinSpaces_head (ws : List (List Char)) (h : ∀ w ∈ ws, goodTok w)
    (hne : ws ≠ []) :
    ∃ c cs, joinSpaces ws = c :: cs ∧ c.isWhitespace = false := by
  match ws with
  | [w] =>
    obtain ⟨hw1, hw2⟩ := h w (by simp)
    match w, hw1 with
    | c :: cs, _ =>
      exact ⟨c, cs, by simp [joinSpaces], hw2 c (by simp)⟩
  | w :: v :: vs =>
    obtain ⟨hw1, hw2⟩ := h w (by simp)
    match w, hw1 with
    | c :: cs, _ =>
      exact ⟨c, cs ++ ' ' :: joinSpaces (v :: vs), by simp [joinSpaces],
        hw2 c (by simp)⟩

lemma joinSpaces_ne_nil (ws : List (List Char)) (h : ∀ w ∈ ws, goodTok w)
    (hne : ws ≠ []) : joinSpaces ws ≠ [] := by
  obtain ⟨c, cs, hj, _⟩ := joinSpaces_head ws h hne
  simp [hj]

lemma joinSpaces_getLast (ws : List (List Char)) (h : ∀ w ∈ ws, goodTok w)
    (hne : ws ≠ []) :
    ∃ c, (joinSpaces ws).getLast? = some c ∧ c.isWhitespace = false := by
  induction ws with
  | nil => exact absurd rfl hne
  | cons w vs ih =>
    cases vs with
    | nil =>
      obtain ⟨hw1, hw2⟩ := h w (by simp)
      refine ⟨w.getLast hw1, ?_, hw2 _ (List.getLast_mem hw1)⟩
      simpa [joinSpaces] using List.getLast?_eq_getLast_of_ne_nil hw1
    | cons v vs2 =>
      obtain ⟨d, hd1, hd2⟩ := ih (fun u hu => h u (List.mem_cons_of_mem w hu))
        (by simp)
      obtain ⟨c, cs, hj, _⟩ := joinSpaces_head (v :: vs2)
        (fun u hu => h u (List.mem_cons_of_mem w hu)) (by simp)
      refine ⟨d, ?_, hd2⟩
      show (joinSpaces (w :: v :: vs2)).getLast? = some d
      have hstep : joinSpaces (w :: v :: vs2) = w ++ ' ' :: joinSpaces (v :: vs2) := by
        simp [joinSpaces]
      rw [hstep, List.getLast?_append_cons, hj, List.getLast?_cons_cons, ← hj, hd1]

lemma trimChars_eq_self (cs : List Char)
    (hhead : ∃ c cs2, cs = c :: cs2 ∧ c.isWhitespace = false)
    (hlast : ∃ c, cs.getLast? = some c ∧ c.isWhitespace = false) :
    trimChars cs = cs := by
  obtain ⟨c, cs2, rfl, hc⟩ := hhead
  obtain ⟨d, hd, hdws⟩ := hlast
  unfold trimChars
  have h1 : (c :: cs2).dropWhile (fun x => x.isWhitespace) = c :: cs2 := by
    simp [List.dropWhile_cons, hc]
  rw [h1]
  have hrev : (c :: cs2).reverse.head? = some d := by
    rw [List.head?_reverse]
    exact hd
  rcases hr : (c :: cs2).reverse with _ | ⟨e, es⟩
  · simp [hr] at hrev
  · rw [hr] at hrev
    have he : e = d := by simpa using hrev
    have h2 : (e :: es).dropWhile (fun x => x.isWhitespace) = e :: es := by
      simp [List.dropWhile_cons, he, hdws]
    rw [h2, ← hr, List.reverse_reverse]

lemma trimChars_joinSpaces (ws : List (List Char)) (h : ∀ w ∈ ws, goodTok w) :
    trimChars (joinSpaces ws) = joinSpaces ws := by
  cases ws with
  | nil => rfl
  | cons w vs =>
    exact trimChars_eq_self _ (joinSpaces_head (w :: vs) h (by simp))
      (joinSpaces_getLast (w :: vs) h (by simp))

/-- C4: In parse_generate_command, when token[1] parses as an integer, a
count strictly less than 1 yields a range error; when parsing succeeds the
resulting count is 10 for requested counts strictly greater than 11 and the
requested count otherwise (so exactly 11 is preserved), and the prompt is the
tokens from index 2 joined by single spaces.  Concretely, parsing
"/generate 15 x" yields count 10 and prompt "x", and parsing
"/generate 11 x" yields count 11 and prompt "x". -/
theorem generate_parse_count (s : List Char) :
    (∀ t0 t1 : List Char, ∀ rest : List (List Char), ∀ c : Int,
        tokenize s = t0 :: t1 :: rest → parseIntPy t1 = some c →
        ((c < 1 → parse_generate_command s = ParseResult.error ParseError.range)
          ∧ (1 ≤ c → rest ≠ [] →
              parse_generate_command s =
                ParseResult.ok ⟨if 11 < c then 10 else c, joinSpaces rest⟩)))
  ∧ parse_generate_command (str "/generate 15 x") = ParseResult.ok ⟨10, str "x"⟩
  ∧ parse_generate_command (str "/generate 11 x") = ParseResult.ok ⟨11, str "x"⟩ := by
  refine ⟨?_, by decide, by decide⟩
  intro t0 t1 rest c htok hint
  have hgood : ∀ w ∈ rest, goodTok w := by
    intro w hw
    exact tokenize_good s w (by rw [htok]; exact List.mem_cons_of_mem _ (List.mem_cons_of_mem _ hw))
  constructor
  · intro hc
    simp [parse_generate_command, htok, parseTokens, hint, parseWithCount, hc]
  · intro hc hrest
    have htrim : trimChars (joinSpaces rest) = joinSpaces rest :=
      trimChars_joinSpaces rest hgood
    have hne : joinSpaces rest ≠ [] := joinSpaces_ne_nil rest hgood hrest
    simp [parse_generate_command, htok, parseTokens, hint, parseWithCount,
      hc.not_lt, htrim, hne]

/-- Witness for C4: a count below 1 produces the range error, and an in-range
count is preserved with the prompt joined from the remaining tokens. -/
theorem generate_parse_count_witness :
    parse_generate_command (str "/generate 0 x") = ParseResult.error ParseError.range
  ∧ parse_generate_command (str "/generate 3 a b") = ParseResult.ok ⟨3, str "a b"⟩ :=
  ⟨((generate_parse_count (str "/generate 0 x")).1 (str "/generate") (str "0")
      [str "x"] 0 (by decide) (by decide)).1 (by decide),
   ((generate_parse_count (str "/generate 3 a b")).1 (str "/generate") (str "3")
      [str "a", str "b"] 3 (by decide) (by decide)).2 (by decide) (by decide)⟩

/-- C5: parse_generate_command fails with the usage error exactly when the
whitespace-split input has fewer than 2 tokens; when token[1] does not parse
as an integer it returns count 1 with the prompt being all tokens from
index 1 joined by single spaces; and in every non-error path (no usage error,
no range error) it fails with the invalid-prompt error exactly when the
prompt computed for that branch is empty after trimming. -/
theorem generate_parse_errors (s : List Char) :
    (parse_generate_command s = ParseResult.error ParseError.usage ↔
        (tokenize s).length < 2)
  ∧ (∀ t0 t1 : List Char, ∀ rest : List (List Char),
        tokenize s = t0 :: t1 :: rest → parseIntPy t1 = none →
        parse_generate_command s = ParseResult.ok ⟨1, joinSpaces (t1 :: rest)⟩)
  ∧ (∀ t0 t1 : List Char, ∀ rest : List (List Char), ∀ c : Int,
        tokenize s = t0 :: t1 :: rest → parseIntPy t1 = some c → 1 ≤ c →
        (parse_generate_command s = ParseResult.error ParseError.invalidPrompt ↔
          trimChars (joinSpaces rest) = []))
  ∧ (∀ t0 t1 : List Char, ∀ rest : List (List Char),
        tokenize s = t0 :: t1 :: rest → parseIntPy t1 = none →
        (parse_generate_command s = ParseResult.error ParseError.invalidPrompt ↔
          trimChars (joinSpaces (t1 :: rest)) = [])) := by
  refine ⟨?_, ?_, ?_, ?_⟩
  · rcases htok : tokenize s with _ | ⟨t0, rest⟩
    · simp [parse_generate_command, htok, parseTokens]
    · rcases rest with _ | ⟨t1, rest2⟩
      · simp [parse_generate_command, htok, parseTokens]
      · have hno : ¬ (t0 :: t1 :: rest2).length < 2 := by simp
        simp only [parse_generate_command, htok, parseTokens, hno, iff_false]
        rcases hint : parseIntPy t1 with _ | c
        · simp only [parseNoCount]
          split
          · simp
          · simp
        · simp only [parseWithCount]
          split
          · simp
          · split
            · simp
            · simp
  · intro t0 t1 rest htok hint
    have hgood : ∀ w ∈ t1 :: rest, goodTok w := by
      intro w hw
      exact tokenize_good s w (by rw [htok]; exact List.mem_cons_of_mem _ hw)
    have htrim : trimChars (joinSpaces (t1 :: rest)) = joinSpaces (t1 :: rest) :=
      trimChars_joinSpaces _ hgood
    have hne : joinSpaces (t1 :: rest) ≠ [] := joinSpaces_ne_nil _ hgood (by simp)
    simp [parse_generate_command, htok, parseTokens, hint, parseNoCount, htrim, hne]
  · intro t0 t1 rest c htok hint hc
    by_cases hp : trimChars (joinSpaces rest) = []
    · simp [parse_generate_command, htok, parseTokens, hint, parseWithCount,
        hc.not_lt, hp]
    · simp [parse_generate_command, htok, parseTokens, hint, parseWithCount,
        hc.not_lt, hp]
  · intro t0 t1 rest htok hint
    by_cases hp : trimChars (joinSpaces (t1 :: rest)) = []
    · simp [parse_generate_command, htok, parseTokens, hint, parseNoCount, hp]
    · simp [parse_generate_command, htok, parseTokens, hint, parseNoCount, hp]

/-- Witness for C5: a non-integer token[1] yields count 1 with the whole tail
as the prompt, and an integer count with no following prompt tokens yields
the invalid-prompt error. -/
theorem generate_parse_errors_witness :
    parse_generate_command (str "/generate a sunset") =
      ParseResult.ok ⟨1, str "a sunset"⟩
  ∧ (parse_generate_command (str "/generate 2") =
        ParseResult.error ParseError.invalidPrompt ↔
      trimChars (joinSpaces []) = []) :=
  ⟨(generate_parse_errors (str "/generate a sunset")).2.1 (str "/generate")
      (str "a") [str "sunset"] (by decide) (by decide),
   (generate_parse_errors (str "/generate 2")).2.2.1 (str "/generate")
      (str "2") [] 2 (by decide) (by decide) (by decide)⟩

/-- One user-visible outbound send.  The source's bot.reply_to /
bot.send_message / bot.send_photo / bot.send_media_group calls are modelled
as emitted events; the distinct fixed message texts of the source are
distinct constructors. -/
inductive Reply
  | rateLimitNotice
  | parseErrorMsg (e : ParseError)
  | ack (count : Int) (prompt : List Char)
  | photo (image : List Char)
  | album (images : List (List Char))
  | noImages
  | backendError
  | chatText (text : List Char)
  | chatError
deriving DecidableEq

/-- Source line 284: MAX_HISTORY = 10. -/
def MAX_HISTORY : Nat := 10

inductive Role
  | user
  | assistant
deriving DecidableEq

/-- One entry of user_conversations[user_id]: a role/content dict. -/
structure Turn where
  role : Role
  content : List Char
deriving DecidableEq

/-- Source lines 283-287: keep only the last MAX_HISTORY entries when the
length exceeds MAX_HISTORY (the Python slice [-MAX_HISTORY:]). -/
def trimHist (h : List Turn) : List Turn :=
  if MAX_HISTORY < h.length then h.drop (h.length - MAX_HISTORY) else h

/-- Source lines 278-287: append the user message, then trim. -/
def appendUserTurn (hist : List Turn) (text : List Char) : List Turn :=
  trimHist (hist ++ [{ role := Role.user, content := text }])

/-- Source lines 307-310: append the assistant reply.  The source performs no
trimming here. -/
def appendAssistantTurn (hist : List Turn) (text : List Char) : List Turn :=
  hist ++ [{ role := Role.assistant, content := text }]

/-- The observable outcome of one handle_user_message call for one user. -/
structure ChatOutcome where
  log : List Int
  history : List Turn
  replies : List Reply
deriving DecidableEq

/-- Source lines 257-317: handle_user_message specialised to one user.  The
backend argument is the outcome of the client.chat.completions.create call:
ok carries response.choices[0].message.content (the source then strips it),
error models a raised exception, answered by the generic error reply. -/
def handle_user_message (now : Int) (log : List Int) (hist : List Turn)
    (text : List Char) (backend : Except Unit (List Char)) : ChatOutcome :=
  let check := is_rate_limited now log
  if check.1 then
    { log := check.2, history := hist, replies := [Reply.rateLimitNotice] }
  else
    let h1 := appendUserTurn hist text
    match backend with
    | Except.ok raw =>
      let reply := trimChars raw
      { log := check.2, history := appendAssistantTurn h1 reply,
        replies := [Reply.chatText reply] }
    | Except.error _ =>
      { log := check.2, history := h1, replies := [Reply.chatError] }

/-- One inbound text message together with the backend outcome its handling
would observe. -/
structure ChatEvent where
  now : Int
  text : List Char
  backend : Except Unit (List Char)

/-- A sequence of handle_user_message calls for one user, threading the rate
limiter log and the conversation history. -/
def runChat : List ChatEvent → List Int → List Turn → List Int × List Turn
  | [], log, hist => (log, hist)
  | e :: es, log, hist =>
    let o := handle_user_message e.now log hist e.text e.backend
    runChat es o.log o.history

lemma trimHist_length_le (h : List Turn) : (trimHist h).length ≤ MAX_HISTORY := by
  unfold trimHist
  split
  · simp only [List.length_drop]
    omega
  · omega

lemma trimHist_eq_drop (h : List Turn) :
    trimHist h = h.drop (h.length - MAX_HISTORY) := by
  unfold trimHist
  split
  · rfl
  · rw [Nat.sub_eq_zero_of_le (by omega), List.drop_zero]

lemma appendUserTurn_length_le (hist : List Turn) (text : List Char) :
    (appendUserTurn hist text).length ≤ MAX_HISTORY :=
  trimHist_length_le _

lemma handle_user_message_history_le (now : Int) (log : List Int)
    (hist : List Turn) (text : List Char) (backend : Except Unit (List Char))
    (h : hist.length ≤ MAX_HISTORY + 1) :
    ((handle_user_message now log hist text backend).history).length ≤
      MAX_HISTORY + 1 := by
  by_cases hlim : (is_rate_limited now log).1 = true
  · simp [handle_user_message, hlim, h]
  · have hu := appendUserTurn_length_le hist text
    cases backend with
    | ok raw =>
      simp [handle_user_message, hlim, appendAssistantTurn]
      omega
    | error e =>
      simp [handle_user_message, hlim]
      omega

lemma runChat_history_le (events : List ChatEvent) (log : List Int)
    (hist : List Turn) (h : hist.length ≤ MAX_HISTORY + 1) :
    ((runChat events log hist).2).length ≤ MAX_HISTORY + 1 := by
  induction events generalizing log hist with
  | nil => simpa [runChat] using h
  | cons e es ih =>
    simpa [runChat] using
      ih _ _ (handle_user_message_history_le e.now log hist e.text e.backend h)

/-- C3 as amended: for every user, after any sequence of chat-message
handlings, the stored ConversationHistory has length at most
MAX_HISTORY + 1 = 11.  The user-turn append trims to the last MAX_HISTORY
entries, dropping the oldest first (it always equals a drop from the front of
the appended list), but the assistant-turn append performs no trim, so a
successful exchange on a full history leaves 11 entries. -/
theorem conversation_history_bound :
    (∀ events : List ChatEvent,
        ((runChat events [] []).2).length ≤ MAX_HISTORY + 1)
  ∧ (∀ hist : List Turn, ∀ text : List Char,
        appendUserTurn hist text =
          (hist ++ [({ role := Role.user, content := text } : Turn)]).drop
            ((hist.length + 1) - MAX_HISTORY))
  ∧ (∀ hist : List Turn, ∀ text : List Char,
        appendAssistantTurn hist text =
          hist ++ [({ role := Role.assistant, content := text } : Turn)]) := by
  refine ⟨fun events => runChat_history_le events [] [] (by simp), ?_, fun _ _ => rfl⟩
  intro hist text
  unfold appendUserTurn
  rw [trimHist_eq_drop]
  simp

/-- Six successful chat exchanges, each admitted by the rate limiter. -/
def sixChats : List ChatEvent :=
  [⟨0, str "m", Except.ok (str "r")⟩, ⟨100, str "m", Except.ok (str "r")⟩,
   ⟨200, str "m", Except.ok (str "r")⟩, ⟨300, str "m", Except.ok (str "r")⟩,
   ⟨400, str "m", Except.ok (str "r")⟩, ⟨500, str "m", Except.ok (str "r")⟩]

/-- Counterexample to C3 as stated: after six successful chat exchanges the
stored history holds 11 entries, exceeding MAX_HISTORY = 10, because the
assistant-turn append does not trim while the user-turn append does. -/
theorem conversation_history_counterexample :
    ((runChat sixChats [] []).2).length = 11
  ∧ ¬ (((runChat sixChats [] []).2).length ≤ MAX_HISTORY) := by
  constructor
  · decide
  · decide

/-- C6: In the chat flow, if the backend chat-completion call fails, no
assistant turn is appended to the user's ConversationHistory (the stored
history is exactly the user-turn append) and exactly one user-visible error
reply is delivered; the assistant turn is appended exactly when the backend
call succeeds. -/
theorem chat_failure_no_phantom_turn (now : Int) (log : List Int)
    (hist : List Turn) (text : List Char)
    (hadm : (is_rate_limited now log).1 = false) :
    ((handle_user_message now log hist text (Except.error ())).history =
        appendUserTurn hist text
      ∧ (handle_user_message now log hist text (Except.error ())).replies =
        [Reply.chatError])
  ∧ (∀ raw : List Char,
        (handle_user_message now log hist text (Except.ok raw)).history =
          appendAssistantTurn (appendUserTurn hist text) (trimChars raw)) := by
  refine ⟨⟨?_, ?_⟩, fun raw => ?_⟩ <;> simp [handle_user_message, hadm]

/-- Witness for C6 at a concrete admitted chat message: the failing branch
leaves only the user turn and sends one error reply; the succeeding branch
appends the assistant turn. -/
theorem chat_failure_no_phantom_turn_witness :
    ((handle_user_message 0 [] [] (str "hi") (Except.error ())).history =
        appendUserTurn [] (str "hi")
      ∧ (handle_user_message 0 [] [] (str "hi") (Except.error ())).replies =
        [Reply.chatError])
  ∧ (handle_user_message 0 [] [] (str "hi") (Except.ok (str " ok "))).history =
      appendAssistantTurn (appendUserTurn [] (str "hi")) (trimChars (str " ok ")) :=
  ⟨(chat_failure_no_phantom_turn 0 [] [] (str "hi") (by decide)).1,
   (chat_failure_no_phantom_turn 0 [] [] (str "hi") (by decide)).2 (str " ok ")⟩

/-- One element of the response.data list of a client.images.generate call:
its b64_json attribute (None modelled as none; the empty string, which is
equally falsy for the source's check, as some []). -/
structure ImageItem where
  b64_json : Option (List Char)
deriving DecidableEq

/-- The arguments of one client.images.generate call (source lines 124-131);
response_format is always b64_json and is not modelled separately. -/
structure ImageGenRequest where
  prompt : List Char
  model : List Char
  width : Nat
  height : Nat
  steps : Nat
  n : Nat
deriving DecidableEq

/-- The fixed argument values of every client.images.generate call in the
source (lines 124-131). -/
def mkRequest (prompt : List Char) : ImageGenRequest :=
  { prompt := prompt, model := str "black-forest-labs/FLUX.1-schnell",
    width := 1024, height := 768, steps := 12, n := 4 }

/-- The payload the source keeps from one backend response (lines 133-148):
response[0].b64_json, provided response (the .data list) is truthy and
nonempty and the b64_json attribute is truthy (neither None nor empty);
otherwise none, which the source turns into a raised ValueError. -/
def firstPayload : Option (List ImageItem) → Option (List Char)
  | some (item :: _) =>
    match item.b64_json with
    | some (c :: cs) => some (c :: cs)
    | _ => none
  | _ => none

/-- Source lines 121-148: the for-loop over range(count).  Iteration i issues
one request (always mkRequest prompt), reads the oracle's response for call
index i, keeps the first item's payload (the base64 decode and the BytesIO
naming are I/O glue and are not modelled; the remaining n - 1 = 3 images of
each response are discarded), and raises - modelled as Except.error, ending
the loop - when the response has no data or no payload.  Returns the
requests issued and either the collected payloads or the failure. -/
def genLoop (prompt : List Char) (oracle : Nat → Option (List ImageItem)) :
    Nat → Nat → List ImageGenRequest × Except Unit (List (List Char))
  | _, 0 => ([], Except.ok [])
  | i, n + 1 =>
    match firstPayload (oracle i) with
    | some payload =>
      let rest := genLoop prompt oracle (i + 1) n
      (mkRequest prompt :: rest.1, rest.2.map (fun imgs => payload :: imgs))
    | none => ([mkRequest prompt], Except.error ())

/-- The first payloads of n consecutive oracle responses starting at call
index s (defaulting to [] where the payload is absent). -/
def collectFirst (oracle : Nat → Option (List ImageItem)) :
    Nat → Nat → List (List Char)
  | _, 0 => []
  | s, n + 1 => (firstPayload (oracle s)).getD [] :: collectFirst oracle (s + 1) n

/-- Source lines 150-166: after the loop, the terminal reply.  An exception
from the loop is answered by the error reply; an empty image list by the
no-images reply; one image by send_photo; several by send_media_group (the
per-image 1-based captions are presentation and are not modelled). -/
def deliverReplies (count : Int) :
    Except Unit (List (List Char)) → List Reply
  | Except.error _ => [Reply.backendError]
  | Except.ok [] => [Reply.noImages]
  | Except.ok (img0 :: more) =>
    if count = 1 then [Reply.photo img0] else [Reply.album (img0 :: more)]

/-- The observable outcome of one telegram_generate_image call for one user:
the updated rate limiter log, the outbound sends in order, and the backend
requests issued in order. -/
structure GenOutcome where
  log : List Int
  replies : List Reply
  requests : List ImageGenRequest
deriving DecidableEq

/-- Source lines 95-166: telegram_generate_image specialised to one user.
Control flow: rate-limit admission first (rejection replies and stops),
then command parsing (a parse error is sent back verbatim and stops), then
the acknowledgment reply naming count and prompt (line 116-119), then the
generation loop and the terminal delivery or error reply. -/
def telegram_generate_image (now : Int) (log : List Int) (text : List Char)
    (oracle : Nat → Option (List ImageItem)) : GenOutcome :=
  let check := is_rate_limited now log
  if check.1 then
    { log := check.2, replies := [Reply.rateLimitNotice], requests := [] }
  else
    match parse_generate_command text with
    | ParseResult.error e =>
      { log := check.2, replies := [Reply.parseErrorMsg e], requests := [] }
    | ParseResult.ok cmd =>
      let run := genLoop cmd.prompt oracle 0 cmd.count.toNat
      { log := check.2,
        replies := Reply.ack cmd.count cmd.prompt :: deliverReplies cmd.count run.2,
        requests := run.1 }

lemma genLoop_requests (prompt : List Char)
    (oracle : Nat → Option (List ImageItem)) :
    ∀ n s : Nat, ∀ r ∈ (genLoop prompt oracle s n).1, r = mkRequest prompt := by
  intro n
  induction n with
  | zero =>
    intro s r hr
    simp [genLoop] at hr
  | succ m ih =>
    intro s r hr
    rcases hp : firstPayload (oracle s) with _ | payload
    · simp [genLoop, hp] at hr
      exact hr
    · simp only [genLoop, hp, List.mem_cons] at hr
      rcases hr with rfl | hr
      · rfl
      · exact ih (s + 1) r hr

lemma genLoop_all_good (prompt : List Char)
    (oracle : Nat → Option (List ImageItem)) :
    ∀ n s : Nat, (∀ i : Nat, i < n → firstPayload (oracle (s + i)) ≠ none) →
      genLoop prompt oracle s n =
        (List.replicate n (mkRequest prompt),
          Except.ok (collectFirst oracle s n)) := by
  intro n
  induction n with
  | zero =>
    intro s h
    simp [genLoop, collectFirst]
  | succ m ih =>
    intro s h
    have h0 : firstPayload (oracle s) ≠ none := by
      simpa using h 0 (Nat.succ_pos m)
    rcases hp : firstPayload (oracle s) with _ | payload
    · exact absurd hp h0
    · have hrec := ih (s + 1) (fun i hi => by
        have hstep := h (i + 1) (Nat.succ_lt_succ hi)
        have harith : s + (i + 1) = s + 1 + i := by omega
        rw [harith] at hstep
        exact hstep)
      simp [genLoop, hp, hrec, collectFirst, Except.map, List.replicate_succ]

lemma genLoop_fails (prompt : List Char)
    (oracle : Nat → Option (List ImageItem)) :
    ∀ n s : Nat, (∃ i : Nat, i < n ∧ firstPayload (oracle (s + i)) = none) →
      (genLoop prompt oracle s n).2 = Except.error () := by
  intro n
  induction n with
  | zero =>
    rintro s ⟨i, hi, _⟩
    omega
  | succ m ih =>
    rintro s ⟨i, hi, hbad⟩
    rcases hp : firstPayload (oracle s) with _ | payload
    · simp [genLoop, hp]
    · have hi0 : i ≠ 0 := by
        rintro rfl
        rw [Nat.add_zero] at hbad
        rw [hbad] at hp
        cases hp
      obtain ⟨j, rfl⟩ := Nat.exists_eq_succ_of_ne_zero hi0
      have hrec := ih (s + 1) ⟨j, by omega, by
        have harith : s + 1 + j = s + (j + 1) := by omega
        rw [harith]
        exact hbad⟩
      simp [genLoop, hp, hrec, Except.map]

lemma collectFirst_length (oracle : Nat → Option (List ImageItem)) :
    ∀ n s : Nat, (collectFirst oracle s n).length = n := by
  intro n
  induction n with
  | zero => intro s; simp [collectFirst]
  | succ m ih => intro s; simp [collectFirst, ih]

lemma parse_count_pos (s : List Char) (cmd : GenerateCommand)
    (h : parse_generate_command s = ParseResult.ok cmd) : 1 ≤ cmd.count := by
  unfold parse_generate_command at h
  rcases htok : tokenize s with _ | ⟨t0, rest⟩ <;> rw [htok] at h
  · simp [parseTokens] at h
  · rcases rest with _ | ⟨t1, rest2⟩
    · simp [parseTokens] at h
    · simp only [parseTokens] at h
      rcases hint : parseIntPy t1 with _ | c <;> rw [hint] at h
      · by_cases hp2 : trimChars (joinSpaces (t1 :: rest2)) = []
        · simp [parseNoCount, hp2] at h
        · simp only [parseNoCount, if_neg hp2] at h
          cases h
          simp
      · by_cases hc : c < 1
        · simp [parseWithCount, hc] at h
        · by_cases hp2 : trimChars (joinSpaces rest2) = []
          · simp [parseWithCount, hc, hp2] at h
          · simp only [parseWithCount, if_neg hc, if_neg hp2] at h
            cases h
            by_cases h11 : 11 < c
            · simp [h11]
            · simp only [if_neg h11]
              omega

/-- C7: In the image-generation flow with parsed count c, if any one of the c
backend calls returns no data or a response whose payload field (b64_json) is
missing (or empty, equally falsy in the source), the whole batch fails: the
only sends are the acknowledgment and the backend error reply, so no image is
delivered to the user. -/
theorem generate_all_or_nothing (now : Int) (log : List Int) (text : List Char)
    (oracle : Nat → Option (List ImageItem)) (cmd : GenerateCommand)
    (hadm : (is_rate_limited now log).1 = false)
    (hp : parse_generate_command text = ParseResult.ok cmd)
    (hbad : ∃ i : Nat, i < cmd.count.toNat ∧ firstPayload (oracle i) = none) :
    (telegram_generate_image now log text oracle).replies =
      [Reply.ack cmd.count cmd.prompt, Reply.backendError] := by
  have hfail := genLoop_fails cmd.prompt oracle cmd.count.toNat 0 (by simpa using hbad)
  simp [telegram_generate_image, hadm, hp, hfail, deliverReplies]

/-- Witness for C7: with count 2 and the second backend call returning no
data, the run sends only the acknowledgment and the error reply. -/
def oracleOneBad : Nat → Option (List ImageItem) :=
  fun i => if i = 0 then some [{ b64_json := some (str "AA") }] else none

theorem generate_all_or_nothing_witness :
    (telegram_generate_image 0 [] (str "/generate 2 cat") oracleOneBad).replies =
      [Reply.ack 2 (str "cat"), Reply.backendError] :=
  generate_all_or_nothing 0 [] (str "/generate 2 cat") oracleOneBad
    ⟨2, str "cat"⟩ (by decide) (by decide) ⟨1, by decide, by decide⟩

lemma is_rate_limited_admit (now : Int) (log : List Int)
    (h : (is_rate_limited now log).1 = false) :
    (is_rate_limited now log).2 = pruneLog now log ++ [now] := by
  unfold is_rate_limited at *
  by_cases h5 : RATE_LIMIT ≤ (pruneLog now log).length
  · simp [h5] at h
  · simp [h5]

/-- C8 as amended: when a /generate command is malformed (usage error) and the
request is admitted, the handler sends exactly the user-visible corrective
message and makes no backend call, but the rate limiter's timestamp log IS
mutated: the admission check runs before parsing and records the current time
(the final log is the pruned log with now appended). -/
theorem usage_error_state (now : Int) (log : List Int) (text : List Char)
    (oracle : Nat → Option (List ImageItem))
    (hadm : (is_rate_limited now log).1 = false)
    (hp : parse_generate_command text = ParseResult.error ParseError.usage) :
    telegram_generate_image now log text oracle =
      { log := pruneLog now log ++ [now],
        replies := [Reply.parseErrorMsg ParseError.usage],
        requests := [] } := by
  simp [telegram_generate_image, hadm, hp, is_rate_limited_admit now log hadm]

/-- An oracle whose every response has no data. -/
def nullOracle : Nat → Option (List ImageItem) := fun _ => none

/-- Witness for C8's amended statement at a concrete malformed command. -/
theorem usage_error_state_witness :
    telegram_generate_image 5 [0] (str "/generate") nullOracle =
      { log := pruneLog 5 [0] ++ [5],
        replies := [Reply.parseErrorMsg ParseError.usage],
        requests := [] } :=
  usage_error_state 5 [0] (str "/generate") nullOracle (by decide) (by decide)

/-- Counterexample to C8 as stated: handling the malformed command
"/generate" for a user with an empty timestamp log sends the corrective
message but changes the rate limiter's log from [] to [0] - per-user state is
mutated. -/
theorem usage_error_counterexample :
    (telegram_generate_image 0 [] (str "/generate") nullOracle).replies =
      [Reply.parseErrorMsg ParseError.usage]
  ∧ (telegram_generate_image 0 [] (str "/generate") nullOracle).log = [0]
  ∧ ([0] : List Int) ≠ [] := by decide

/-- C9 as amended: every backend image-generation call made by the
image-generation flow passes the hardcoded generation parameters of the
source: model black-forest-labs/FLUX.1-schnell, width 1024, height 768,
steps 12, and n = 4 images per call. -/
theorem image_request_params (now : Int) (log : List Int) (text : List Char)
    (oracle : Nat → Option (List ImageItem)) :
    ∀ r ∈ (telegram_generate_image now log text oracle).requests,
      r.model = str "black-forest-labs/FLUX.1-schnell" ∧ r.width = 1024
        ∧ r.height = 768 ∧ r.steps = 12 ∧ r.n = 4 := by
  intro r hr
  by_cases hlim : (is_rate_limited now log).1 = true
  · simp [telegram_generate_image, hlim] at hr
  · rcases hp : parse_generate_command text with cmd | e
    · simp [telegram_generate_image, hlim, hp] at hr
      have hreq := genLoop_requests cmd.prompt oracle cmd.count.toNat 0 r hr
      subst hreq
      simp [mkRequest]
    · simp [telegram_generate_image, hlim, hp] at hr

/-- An oracle whose every response carries one payload-bearing item. -/
def oracleGood : Nat → Option (List ImageItem) :=
  fun _ => some [{ b64_json := some (str "AAAA") }]

/-- Witness for C9's amended statement: the one request of a concrete
admitted run carries the hardcoded parameters. -/
theorem image_request_params_witness :
    (mkRequest (str "x")).model = str "black-forest-labs/FLUX.1-schnell"
  ∧ (mkRequest (str "x")).width = 1024 ∧ (mkRequest (str "x")).height = 768
  ∧ (mkRequest (str "x")).steps = 12 ∧ (mkRequest (str "x")).n = 4 :=
  image_request_params 0 [] (str "/generate x") oracleGood (mkRequest (str "x"))
    (by decide)

/-- Counterexample to C9 as stated: a concrete admitted "/generate x" run
issues exactly one backend request, and that request carries width 1024,
height 768 and steps 12 - not the configuration-default width 736,
height 1312 and steps 4 the claim asserts. -/
theorem image_request_params_counterexample :
    (telegram_generate_image 0 [] (str "/generate x") oracleGood).requests =
      [mkRequest (str "x")]
  ∧ (mkRequest (str "x")).width = 1024
  ∧ (mkRequest (str "x")).height = 768
  ∧ (mkRequest (str "x")).steps = 12
  ∧ ¬((mkRequest (str "x")).width = 736 ∧ (mkRequest (str "x")).height = 1312
        ∧ (mkRequest (str "x")).steps = 4) := by decide

/-- C10: For every admitted /generate request with parsed count c ( =
cmd.count.toNat) whose backend calls all yield a payload, the dispatcher
makes exactly c backend calls (the request list is c copies of the fixed
request, whose n field is 4 images per call), and only the first image of
each response is kept, so exactly c images - the first payload of each of
the c responses, in order - are delivered: one photo when c = 1, else one
album of the c collected first payloads. -/
theorem generate_success_delivery (now : Int) (log : List Int) (text : List Char)
    (oracle : Nat → Option (List ImageItem)) (cmd : GenerateCommand)
    (hadm : (is_rate_limited now log).1 = false)
    (hp : parse_generate_command text = ParseResult.ok cmd)
    (hgood : ∀ i : Nat, i < cmd.count.toNat → firstPayload (oracle i) ≠ none) :
    (telegram_generate_image now log text oracle).requests =
      List.replicate cmd.count.toNat (mkRequest cmd.prompt)
  ∧ (collectFirst oracle 0 cmd.count.toNat).length = cmd.count.toNat
  ∧ (telegram_generate_image now log text oracle).replies =
      [Reply.ack cmd.count cmd.prompt,
       if cmd.count = 1 then Reply.photo ((firstPayload (oracle 0)).getD [])
       else Reply.album (collectFirst oracle 0 cmd.count.toNat)] := by
  have hcount := parse_count_pos text cmd hp
  have hall := genLoop_all_good cmd.prompt oracle cmd.count.toNat 0
    (fun i hi => by simpa using hgood i hi)
  obtain ⟨m, hm⟩ : ∃ m, cmd.count.toNat = m + 1 :=
    ⟨cmd.count.toNat - 1, by omega⟩
  refine ⟨?_, collectFirst_length oracle _ 0, ?_⟩
  · simp [telegram_generate_image, hadm, hp, hall]
  · have hrepl : (telegram_generate_image now log text oracle).replies =
        Reply.ack cmd.count cmd.prompt ::
          deliverReplies cmd.count
            (Except.ok (collectFirst oracle 0 cmd.count.toNat)) := by
      simp [telegram_generate_image, hadm, hp, hall]
    rw [hrepl, hm]
    by_cases h1 : cmd.count = 1 <;> simp [deliverReplies, collectFirst, h1]

/-- An oracle for a two-call run; each response holds two items so that
keeping only the first is observable. -/
def oracleTwo : Nat → Option (List ImageItem) :=
  fun i =>
    if i = 0 then
      some [{ b64_json := some (str "AA") }, { b64_json := some (str "XX") }]
    else some [{ b64_json := some (str "BB") }]

/-- Witness for C10 at a concrete admitted "/generate 2 cat" run: two
requests are issued and the album holds the two first payloads. -/
theorem generate_success_delivery_witness :
    (telegram_generate_image 0 [] (str "/generate 2 cat") oracleTwo).requests =
      List.replicate 2 (mkRequest (str "cat"))
  ∧ (collectFirst oracleTwo 0 2).length = 2
  ∧ (telegram_generate_image 0 [] (str "/generate 2 cat") oracleTwo).replies =
      [Reply.ack 2 (str "cat"),
       if (2 : Int) = 1 then Reply.photo ((firstPayload (oracleTwo 0)).getD [])
       else Reply.album (collectFirst oracleTwo 0 2)] :=
  generate_success_delivery 0 [] (str "/generate 2 cat") oracleTwo
    ⟨2, str "cat"⟩ (by decide) (by decide) (by decide)

end TelegramBot
